import Mathlib

/-!
Verification development for the Alpine Club mountain-viewer client
(`src/main.py`).  The client is GUI glue around a REST backend; the logic
verified here is a shallow embedding of its pure decision kernel:

* JSON payloads are modelled by the inductive `JValue` (integers stand in for
  JSON numbers; none of the verified behaviour inspects fractional values).
* Python truthiness (`if x:`), `x or y`, `==` and `dict.get` are modelled by
  `JValue.truthy`, `pyOr`, `JValue.pyEq` and `JValue.get?`.  `JValue.get?` on a
  non-object returns `none`; in the source this situation raises, and every
  place the model is applied keeps to inputs where the source performs the
  lookup on a dict.  Python dict equality is order-insensitive; `pyEq` compares
  object fields in order, which agrees with it on all scalar ids compared here.
* Each Qt completion handler becomes a pure function from a transport-error
  flag and the parsed payload to the new view state plus counts of the
  message boxes it shows and the requests it fires.
-/

namespace AlpineViewer

/-- JSON values as delivered by the backend.  Numbers are modelled as `Int`;
bodies with fractional numbers fall outside every claim considered here. -/
inductive JValue where
  | null : JValue
  | jbool : Bool → JValue
  | jnum : Int → JValue
  | jstr : String → JValue
  | jarr : List JValue → JValue
  | jobj : List (String × JValue) → JValue

/-- Python truthiness of a JSON value (`if x:`). -/
def JValue.truthy : JValue → Bool
  | .null => false
  | .jbool b => b
  | .jnum n => !(n == 0)
  | .jstr s => !(s == "")
  | .jarr xs => !xs.isEmpty
  | .jobj fs => !fs.isEmpty

/-- Python `==` restricted to the scalar values the client actually compares:
the comparisons in the source are `mid == -1`, `mid is None`, and
`current_id in ids`, all between ids and sentinels, which the data model
fixes as integers (or null/absent).  `True == 1` is honoured.  Python's deep
list/dict equality is outside every claim's scope and modelled as `false`. -/
def JValue.pyEq : JValue → JValue → Bool
  | .null, .null => true
  | .jbool a, .jbool b => a == b
  | .jbool a, .jnum b => (if a then (1 : Int) else 0) == b
  | .jnum a, .jbool b => a == (if b then (1 : Int) else 0)
  | .jnum a, .jnum b => a == b
  | .jstr a, .jstr b => a == b
  | _, _ => false

/-- First binding of a key in an association list (Python dicts have unique
keys, so first = only). -/
def lookupField : List (String × JValue) → String → Option JValue
  | [], _ => none
  | (k, v) :: fs, key => if k == key then some v else lookupField fs key

/-- Python `d.get(k)` (default `None` is represented by `none`).  On a
non-object the source would raise `AttributeError`; the model is only applied
where the source value is a dict. -/
def JValue.get? : JValue → String → Option JValue
  | .jobj fs, k => lookupField fs k
  | _, _ => none

/-- Python `a or b` restricted to JSON values. -/
def pyOr (a b : JValue) : JValue := if a.truthy then a else b

/-- Python `str()` of a JSON value as used inside f-strings.  Composite values
are abbreviated; no verified behaviour formats a composite. -/
def pyStr : JValue → String
  | .null => "None"
  | .jbool true => "True"
  | .jbool false => "False"
  | .jnum n => toString n
  | .jstr s => s
  | .jarr _ => "[…]"
  | .jobj _ => "\x7b…\x7d"

/-- Python `x.get(k)` with `None` materialised as `JValue.null` (the form the
f-strings receive). -/
def getJ (v : JValue) (k : String) : JValue := (v.get? k).getD .null

-- ---------------------------------------------------------------------------
-- Python str.strip(), modelled over the source's character data
-- ---------------------------------------------------------------------------

/-- Drop leading whitespace characters (the ASCII core of Python's
`str.strip` character class). -/
def pyLStrip : List Char → List Char
  | c :: cs => if c.isWhitespace then pyLStrip cs else c :: cs
  | [] => []

/-- Python `s.strip()`: leading and trailing whitespace removed. -/
def pyStrip (s : String) : String :=
  ⟨(pyLStrip ((pyLStrip s.data).reverse)).reverse⟩

-- ---------------------------------------------------------------------------
-- human_name_from_climber  (src/main.py lines 54-56)
-- ---------------------------------------------------------------------------

/-- A climber record as consumed by `human_name_from_climber`: each name part
and the email is either a string or absent (`None` and a missing key behave
identically under `c.get(...) or ''`). -/
structure Climber where
  first_name : Option String
  middle_name : Option String
  last_name : Option String
  email : Option String

/-- Translation of `human_name_from_climber`:
`parts = [c.get('first_name') or '', ...]` then
`' '.join([p for p in parts if p]).strip() or c.get('email') or 'Unknown'`. -/
def human_name_from_climber (c : Climber) : String :=
  let parts := [c.first_name.getD "", c.middle_name.getD "", c.last_name.getD ""]
  let s := pyStrip (String.intercalate " " (parts.filter (fun p => p != "")))
  if s ≠ "" then s
  else match c.email with
    | some e => if e ≠ "" then e else "Unknown"
    | none => "Unknown"

/-- The display-name rule exactly as the claim words it: the space-joined
non-empty name parts; the email only when all name parts are empty or absent;
"Unknown" when the email too is empty or absent.  (No stripping.) -/
def displayNameClaim (c : Climber) : String :=
  let parts := [c.first_name.getD "", c.middle_name.getD "", c.last_name.getD ""].filter
    (fun p => p != "")
  if parts.isEmpty then
    match c.email with
    | some e => if e ≠ "" then e else "Unknown"
    | none => "Unknown"
  else String.intercalate " " parts

/-- The amended display-name rule: as the claim, but the joined name is
stripped of surrounding whitespace first, and the email fallback triggers
whenever the stripped join is empty. -/
def displayNameAmended (c : Climber) : String :=
  let j := pyStrip (String.intercalate " "
    ([c.first_name.getD "", c.middle_name.getD "", c.last_name.getD ""].filter
      (fun p => p != "")))
  if j = "" then
    match c.email with
    | some e => if e = "" then "Unknown" else e
    | none => "Unknown"
  else j

-- ---------------------------------------------------------------------------
-- Group records and the chronological sort  (src/main.py lines 258-282)
-- ---------------------------------------------------------------------------

/-- A group record as rendered by `MountainsPage._on_groups`.  The sort key
field `ascent_start_date` is `some s` for a truthy string value and `none`
when the field is absent, `null`, or any other falsy value (all of which the
source's `x.get('ascent_start_date') or ''` collapses to `''`).  The other
fields are kept as raw JSON values. -/
structure GroupRec where
  group_name : Option JValue
  name : Option JValue
  leader_name : Option JValue
  ascent_start_date : Option String
  ascent_status : Option JValue
  members_count : Option JValue
  total_members_count : Option JValue
  description : Option JValue

/-- The sort key of `sorted(data, key=lambda x: x.get('ascent_start_date') or '')`. -/
def startKey (g : GroupRec) : String := g.ascent_start_date.getD ""

/-- Ordering used by the groups sort: non-decreasing by `startKey`. -/
def groupLe (a b : GroupRec) : Prop := startKey a ≤ startKey b

instance : DecidableRel groupLe := fun a b =>
  inferInstanceAs (Decidable (startKey a ≤ startKey b))

instance : IsTotal GroupRec groupLe := ⟨fun a b => le_total (startKey a) (startKey b)⟩

instance : IsTrans GroupRec groupLe := ⟨fun _ _ _ h1 h2 => le_trans h1 h2⟩

/-- `sorted(data, key=lambda x: x.get('ascent_start_date') or '')`: a stable
sort, non-decreasing in the key (any stable sort computes the same list as
CPython's Timsort, so an insertion sort is a faithful model). -/
def sortGroups (gs : List GroupRec) : List GroupRec := List.insertionSort groupLe gs

/-- Interpret one element of a groups payload as a record within the scope the
source renders without raising: the element must be an object, and a truthy
`ascent_start_date` must be a string (a truthy non-string date makes the
source's `sorted` raise `TypeError` on mixed keys, which is outside every
claim's scope). -/
def toGroupRec? : JValue → Option GroupRec
  | .jobj fs =>
    let v := JValue.jobj fs
    let mk : Option String → GroupRec := fun d =>
      ⟨v.get? "group_name", v.get? "name", v.get? "leader_name", d,
       v.get? "ascent_status", v.get? "members_count",
       v.get? "total_members_count", v.get? "description"⟩
    (match v.get? "ascent_start_date" with
      | none => some (mk none)
      | some d =>
        if d.truthy then
          match d with
          | .jstr s => some (mk (some s))
          | _ => none
        else some (mk none))
  | _ => none

-- ---------------------------------------------------------------------------
-- Requests and the Mountains page view state
-- ---------------------------------------------------------------------------

/-- The asynchronous GET requests `MountainsPage` can fire, tagged with the id
interpolated into the endpoint path. -/
inductive Request where
  | getMountainDetail : JValue → Request
  | getMountainGroups : JValue → Request

/-- View state owned by `MountainsPage`: the cached `current_mountain` record,
the five detail widgets and the rendered group list (each list item stores its
raw group record via `setData(Qt.UserRole, g)`, so the rendered order is the
order of these records). -/
structure MView where
  current_mountain : Option JValue
  name_lbl : String
  height_lbl : String
  country_lbl : String
  region_lbl : String
  desc : String
  groups_list : List GroupRec

/-- The detail half of the view (everything `_on_mountain_detail` writes). -/
def detailHalf (st : MView) : Option JValue × String × String × String × String × String :=
  (st.current_mountain, st.name_lbl, st.height_lbl, st.country_lbl, st.region_lbl, st.desc)

/-- The groups half of the view (everything `_on_groups` writes). -/
def groupsHalf (st : MView) : List GroupRec := st.groups_list

/-- `MountainsPage.load_mountain` (lines 238-244): `if not mountain_id: return`,
otherwise fire the detail GET and the groups GET. -/
def load_mountain (mid : JValue) : List Request :=
  if mid.truthy then [.getMountainDetail mid, .getMountainGroups mid] else []

/-- `MountainsPage._on_mountain_detail` (lines 246-256).  Result: new view
state and the number of warning dialogs shown.  A transport error warns once
and leaves the view untouched; a non-dict payload is ignored; a dict payload
rewrites the detail half only. -/
def on_mountain_detail (err : Bool) (data : Option JValue) (st : MView) : MView × Nat :=
  if err then (st, 1)
  else
    match data with
    | some (.jobj fs) =>
      let d := JValue.jobj fs
      ({ st with
          current_mountain := some d,
          name_lbl := "Name: " ++ pyStr ((d.get? "name").getD (.jstr "—")),
          height_lbl := "Height: " ++ pyStr ((d.get? "height").getD (.jstr "—")),
          country_lbl := "Country: " ++ pyStr ((d.get? "country").getD (.jstr "—")),
          region_lbl := "Region: " ++ pyStr ((d.get? "region").getD (.jstr "—")),
          desc := pyStr ((d.get? "description").getD (.jstr "")) }, 0)
    | _ => (st, 0)

/-- `MountainsPage._on_groups` (lines 258-282).  A transport error warns once
and leaves the view untouched.  Otherwise the list widget is cleared first;
a list payload whose elements are in-scope records is rendered sorted by
`sortGroups`; any other payload leaves the list cleared.  (A list containing
out-of-scope elements raises in the source mid-render and is modelled as the
cleared list.) -/
def on_groups (err : Bool) (data : Option JValue) (st : MView) : MView × Nat :=
  if err then (st, 1)
  else
    let st1 := { st with groups_list := [] }
    match data with
    | some (.jarr xs) =>
      (match xs.mapM toGroupRec? with
        | some gs => ({ st1 with groups_list := sortGroups gs }, 0)
        | none => (st1, 0))
    | _ => (st1, 0)

/-- The payload-shape guard `isinstance(data, list)`. -/
def isListPayload : Option JValue → Bool
  | some (.jarr _) => true
  | _ => false

/-- The payload-shape guard `isinstance(data, dict)`. -/
def isDictPayload : Option JValue → Bool
  | some (.jobj _) => true
  | _ => false

/-- The guard `isinstance(data, list) and len(data) > 0` used before edits. -/
def nonEmptyListPayload : Option JValue → Bool
  | some (.jarr xs) => !xs.isEmpty
  | _ => false

-- ---------------------------------------------------------------------------
-- Refresh  (src/main.py lines 298-353)
-- ---------------------------------------------------------------------------

/-- The placeholder reset performed when the refreshed mountain list is empty
(lines 329-337). -/
def resetMView (st : MView) : MView :=
  { st with
      current_mountain := none,
      name_lbl := "Name: —",
      height_lbl := "Height: —",
      country_lbl := "Country: —",
      region_lbl := "Region: —",
      desc := "",
      groups_list := [] }

/-- `MountainsPage._on_refresh_fetched` (lines 318-353).  Result: new view
state, warning count, requests fired through `load_mountain`. -/
def on_refresh_fetched (err : Bool) (data : Option JValue) (st : MView) :
    MView × Nat × List Request :=
  if err then (st, 1, [])
  else
    let mountains : List JValue := match data with | some (.jarr xs) => xs | _ => []
    match mountains with
    | [] => (resetMView st, 0, [])
    | m0 :: rest =>
      let current_id : JValue := match st.current_mountain with
        | some cm => getJ cm "id"
        | none => .null
      let ids := (m0 :: rest).map (fun m => getJ m "id")
      if current_id.truthy && ids.any (fun i => i.pyEq current_id) then
        (st, 0, load_mountain current_id)
      else
        let first_mid := getJ m0 "id"
        if first_mid.truthy then (st, 0, load_mountain first_mid) else (st, 0, [])

/-- The amended refresh rule, stated from the corrected claim's words: an
empty list resets the view to placeholders; otherwise the current mountain is
reloaded when its id is truthy and present among the fetched ids; otherwise
the first mountain is loaded when its id is truthy; otherwise nothing is
loaded. -/
def refresh_spec (ms : List JValue) (st : MView) : MView × Nat × List Request :=
  if ms.isEmpty then (resetMView st, 0, [])
  else
    let cid : JValue := match st.current_mountain with
      | some cm => getJ cm "id"
      | none => .null
    if cid.truthy && (ms.map (fun m => getJ m "id")).any (fun i => i.pyEq cid) then
      (st, 0, [.getMountainDetail cid, .getMountainGroups cid])
    else
      let fid := getJ (ms.headD .null) "id"
      if fid.truthy then (st, 0, [.getMountainDetail fid, .getMountainGroups fid])
      else (st, 0, [])

-- ---------------------------------------------------------------------------
-- Edit guard  (src/main.py lines 362-390)
-- ---------------------------------------------------------------------------

/-- Field values of the edit dialog at the moment it is accepted. -/
structure EditForm where
  name : String
  height : Int
  country : String
  region : String
  description : String

/-- Observable outcome of `_on_check_groups_before_edit`. -/
structure CheckEditResult where
  warns : Nat
  infos : Nat
  dialogOpened : Bool
  put : Option (JValue × EditForm)

/-- `MountainsPage._on_check_groups_before_edit` (lines 370-384).  `current`
is `self.current_mountain` (a dict — `on_edit` refuses falsy values before
fetching); `dlg = some f` models the dialog being accepted with final field
values `f`, `none` models cancellation. -/
def on_check_groups_before_edit (err : Bool) (data : Option JValue) (current : JValue)
    (dlg : Option EditForm) : CheckEditResult :=
  if err then ⟨1, 0, false, none⟩
  else if nonEmptyListPayload data then ⟨0, 1, false, none⟩
  else
    match dlg with
    | some f => ⟨0, 0, true, some (getJ current "id", f)⟩
    | none => ⟨0, 0, true, none⟩

-- ---------------------------------------------------------------------------
-- Group creation  (src/main.py lines 423-437)
-- ---------------------------------------------------------------------------

/-- Field values of the add-group dialog at the moment it is accepted;
`selected` is `mc.currentData()` (`-1` for the sentinel first entry). -/
structure AddGroupForm where
  name : String
  description : String
  leader_id : Int
  start_date : String
  selected : JValue

/-- Body of the `POST /groups/` request. -/
structure GroupPayload where
  name : String
  description : String
  leader_id : Int
  mountain_id : JValue
  start_date : String

/-- Observable outcome of `GroupsPage._prep_add`. -/
structure PrepAddResult where
  warns : Nat
  infos : Nat
  post : Option GroupPayload
  combo : Option (List (String × JValue))

/-- Combo label `f"{m.get('name')} ({m.get('country')})"`. -/
def mountainLabel (m : JValue) : String :=
  pyStr (getJ m "name") ++ " (" ++ pyStr (getJ m "country") ++ ")"

/-- The add-group mountain combo: sentinel entry `('Select', -1)` followed by
one entry per fetched mountain. -/
def comboEntries (mountains : JValue) : List (String × JValue) :=
  ("Select", .jnum (-1)) ::
    (match mountains with
      | .jarr xs => xs.map (fun m => (mountainLabel m, getJ m "id"))
      | _ => [])

/-- `GroupsPage._prep_add` (lines 426-437): a transport error warns once and
shows no dialog; otherwise `mountains = parse_reply_json(r) or []` feeds the
combo; on acceptance the sentinel `-1` is refused with an informational
message and no POST, any other selection is posted. -/
def prep_add (err : Bool) (data : Option JValue) (dlg : Option AddGroupForm) : PrepAddResult :=
  if err then ⟨1, 0, none, none⟩
  else
    let mountains := pyOr (data.getD .null) (.jarr [])
    let combo := comboEntries mountains
    match dlg with
    | none => ⟨0, 0, none, some combo⟩
    | some f =>
      if f.selected.pyEq (.jnum (-1)) then ⟨0, 1, none, some combo⟩
      else ⟨0, 0, some ⟨f.name, f.description, f.leader_id, f.selected, f.start_date⟩,
            some combo⟩

-- ---------------------------------------------------------------------------
-- List pages and stats  (src/main.py lines 394-469)
-- ---------------------------------------------------------------------------

/-- Fields of a climber dict within the string-or-absent scope of
`human_name_from_climber`. -/
def climberOfJ (c : JValue) : Climber :=
  let s? : Option JValue → Option String := fun o =>
    match o with | some (.jstr s) => some s | _ => none
  ⟨s? (c.get? "first_name"), s? (c.get? "middle_name"),
   s? (c.get? "last_name"), s? (c.get? "email")⟩

/-- One row of the climbers list:
`f"{human_name_from_climber(c)} — {c.get('email','')}"`. -/
def climberRow (c : JValue) : String :=
  human_name_from_climber (climberOfJ c) ++ " — " ++ pyStr ((c.get? "email").getD (.jstr ""))

/-- `ClimbersPage._on_fetched` (lines 404-408): error warns once leaving the
list; otherwise clear, then render each element of a list payload. -/
def climbers_on_fetched (err : Bool) (data : Option JValue) (st : List String) :
    List String × Nat :=
  if err then (st, 1)
  else
    match data with
    | some (.jarr xs) => (xs.map climberRow, 0)
    | _ => ([], 0)

/-- One row of the groups list: `f"{g.get('name')} — leader:{g.get('leader_id')}"`. -/
def groupRow (g : JValue) : String :=
  pyStr (getJ g "name") ++ " — leader:" ++ pyStr (getJ g "leader_id")

/-- `GroupsPage._on_fetched` (lines 418-422). -/
def groups_page_on_fetched (err : Bool) (data : Option JValue) (st : List String) :
    List String × Nat :=
  if err then (st, 1)
  else
    match data with
    | some (.jarr xs) => (xs.map groupRow, 0)
    | _ => ([], 0)

/-- One row of the ascents list (lines 453-456), including the
`a.get('mountain_name') or (a.get('mountain') or \x7b\x7d).get('name') or '—'`
fallback chain. -/
def ascentRow (a : JValue) : String :=
  let mountain := pyOr (getJ a "mountain_name")
    (pyOr (getJ (pyOr (getJ a "mountain") (.jobj [])) "name") (.jstr "—"))
  let group := pyOr (getJ a "group_name")
    (pyOr (getJ (pyOr (getJ a "group") (.jobj [])) "name") (.jstr "—"))
  pyStr mountain ++ " — " ++ pyStr group ++ " — " ++ pyStr (getJ a "start_date") ++
    " -> " ++ pyStr (getJ a "end_date") ++ " — " ++ pyStr (getJ a "status")

/-- `AscentsPage._on_fetched` (lines 449-456). -/
def ascents_on_fetched (err : Bool) (data : Option JValue) (st : List String) :
    List String × Nat :=
  if err then (st, 1)
  else
    match data with
    | some (.jarr xs) => (xs.map ascentRow, 0)
    | _ => ([], 0)

/-- One stats line (lines 466-468). -/
def statLine (m : JValue) : String :=
  pyStr (getJ m "name") ++ " (" ++ pyStr (getJ m "height") ++ ") — ascents: " ++
    pyStr (getJ m "ascents_count") ++ " — unique groups/visitors: " ++
    pyStr (getJ m "unique_groups_count")

/-- `StatsPage._on_fetched` (lines 462-469): error warns once leaving the
text; a non-list payload renders the placeholder `'No stats'`. -/
def stats_on_fetched (err : Bool) (data : Option JValue) (st : String) : String × Nat :=
  if err then (st, 1)
  else
    match data with
    | some (.jarr xs) => (String.intercalate "\n" (xs.map statLine), 0)
    | _ => ("No stats", 0)

-- ---------------------------------------------------------------------------
-- Mountain combo loader  (src/main.py lines 572-596)
-- ---------------------------------------------------------------------------

/-- `MainWindow._on_combo_loaded` (lines 575-588).  On a transport error the
handler returns silently: no dialog, combo and title untouched.  Otherwise the
combo is rebuilt; a non-empty list selects index 1 — `setCurrentIndex(1)`
fires `on_combo_change`, whose duplicate `load_mountain` is included in the
request list — sets the title and loads the first mountain when its id is
truthy. -/
def on_combo_loaded (err : Bool) (data : Option JValue) (combo : List (String × JValue))
    (title : String) : (List (String × JValue) × String) × Nat × List Request :=
  if err then ((combo, title), 0, [])
  else
    let items := match data with | some (.jarr xs) => xs | _ => []
    let combo2 := ("Select mountain", JValue.jnum (-1)) ::
      items.map (fun m => (mountainLabel m, getJ m "id"))
    match items with
    | [] => ((combo2, title), 0, [])
    | first :: _ =>
      let mid := getJ first "id"
      let signalLoads := if mid.pyEq .null || mid.pyEq (.jnum (-1)) then [] else load_mountain mid
      let title2 := pyStr (pyOr (getJ first "name") (.jstr "—"))
      ((combo2, title2), 0, signalLoads ++ (if mid.truthy then load_mountain mid else []))

-- ---------------------------------------------------------------------------
-- parse_reply_json  (src/main.py lines 45-51)
-- ---------------------------------------------------------------------------

/-- Is `b` a UTF-8 continuation byte? -/
def isCont (b : Nat) : Bool := 0x80 ≤ b && b ≤ 0xBF

/-- Fuelled strict UTF-8 decoder (the semantics of `bytes(raw).decode('utf-8')`:
overlong encodings, surrogates and out-of-range sequences are rejected). -/
def utf8DecodeF : Nat → List Nat → Option (List Char)
  | 0, _ => none
  | _ + 1, [] => some []
  | fuel + 1, b :: rest =>
    if b < 0x80 then (utf8DecodeF fuel rest).map (List.cons (Char.ofNat b))
    else if 0xC2 ≤ b && b ≤ 0xDF then
      match rest with
      | c1 :: r =>
        if isCont c1 then
          (utf8DecodeF fuel r).map (List.cons (Char.ofNat ((b - 0xC0) * 0x40 + (c1 - 0x80))))
        else none
      | [] => none
    else if 0xE0 ≤ b && b ≤ 0xEF then
      match rest with
      | c1 :: c2 :: r =>
        let lo1 := if b == 0xE0 then 0xA0 else 0x80
        let hi1 := if b == 0xED then 0x9F else 0xBF
        if lo1 ≤ c1 && c1 ≤ hi1 && isCont c2 then
          (utf8DecodeF fuel r).map
            (List.cons (Char.ofNat ((b - 0xE0) * 0x1000 + (c1 - 0x80) * 0x40 + (c2 - 0x80))))
        else none
      | _ => none
    else if 0xF0 ≤ b && b ≤ 0xF4 then
      match rest with
      | c1 :: c2 :: c3 :: r =>
        let lo1 := if b == 0xF0 then 0x90 else 0x80
        let hi1 := if b == 0xF4 then 0x8F else 0xBF
        if lo1 ≤ c1 && c1 ≤ hi1 && isCont c2 && isCont c3 then
          (utf8DecodeF fuel r).map
            (List.cons (Char.ofNat
              ((b - 0xF0) * 0x40000 + (c1 - 0x80) * 0x1000 + (c2 - 0x80) * 0x40 + (c3 - 0x80))))
        else none
      | _ => none
    else none

/-- `bytes(raw).decode('utf-8')` as a total function: `none` is the
`UnicodeDecodeError` case. -/
def utf8Decode (bs : List Nat) : Option (List Char) := utf8DecodeF (bs.length + 1) bs

/-- JSON whitespace (exactly the four characters `json.loads` skips). -/
def skipWs : List Char → List Char
  | c :: cs => if c == ' ' || c == '\t' || c == '\n' || c == '\r' then skipWs cs else c :: cs
  | [] => []

/-- ASCII digit test. -/
def isDigit (c : Char) : Bool := '0' ≤ c && c ≤ '9'

/-- Hex digit value. -/
def hexVal (c : Char) : Option Nat :=
  if '0' ≤ c && c ≤ '9' then some (c.toNat - 48)
  else if 'a' ≤ c && c ≤ 'f' then some (c.toNat - 87)
  else if 'A' ≤ c && c ≤ 'F' then some (c.toNat - 55)
  else none

/-- Accumulate a run of digits. -/
def digitsVal (acc : Nat) : List Char → Nat × List Char
  | c :: cs => if isDigit c then digitsVal (acc * 10 + (c.toNat - 48)) cs else (acc, c :: cs)
  | [] => (acc, [])

/-- JSON integer literal (leading zeros rejected, as `json.loads` does).
Fractional and exponent forms are not consumed: a body using them falls
outside the claims considered here. -/
def parseNum : List Char → Option (Int × List Char)
  | [] => none
  | c :: cs =>
    if c == '0' then
      match cs with
      | d :: _ => if isDigit d then none else some (0, cs)
      | [] => some (0, [])
    else if isDigit c then
      let p := digitsVal (c.toNat - 48) cs
      some ((p.1 : Int), p.2)
    else none

/-- One string-escape sequence after a backslash. -/
def escChar (e : Char) (rest : List Char) : Option (Char × List Char) :=
  if e == '"' then some ('"', rest)
  else if e == '\\' then some ('\\', rest)
  else if e == '/' then some ('/', rest)
  else if e == 'b' then some ('\x08', rest)
  else if e == 'f' then some ('\x0c', rest)
  else if e == 'n' then some ('\n', rest)
  else if e == 'r' then some ('\r', rest)
  else if e == 't' then some ('\t', rest)
  else if e == 'u' then
    match rest with
    | a :: b :: c :: d :: r =>
      match hexVal a, hexVal b, hexVal c, hexVal d with
      | some x, some y, some z, some w => some (Char.ofNat (4096 * x + 256 * y + 16 * z + w), r)
      | _, _, _, _ => none
    | _ => none
  else none

/-- Fuelled JSON string body (the opening quote already consumed).  Raw
control characters are rejected as in strict `json.loads`. -/
def parseStrBody : Nat → List Char → Option (String × List Char)
  | 0, _ => none
  | fuel + 1, cs =>
    match cs with
    | '"' :: rest => some ("", rest)
    | '\\' :: e :: rest =>
      (match escChar e rest with
        | some (c, r) => (parseStrBody fuel r).map (fun p => (⟨c :: p.1.data⟩, p.2))
        | none => none)
    | c :: rest =>
      if c.toNat < 0x20 then none
      else (parseStrBody fuel rest).map (fun p => (⟨c :: p.1.data⟩, p.2))
    | [] => none

mutual

/-- Fuelled recursive-descent JSON value (the grammar of `json.loads`,
restricted to integer numerals). -/
def parseJ : Nat → List Char → Option (JValue × List Char)
  | 0, _ => none
  | fuel + 1, cs =>
    match skipWs cs with
    | 'n' :: 'u' :: 'l' :: 'l' :: rest => some (.null, rest)
    | 't' :: 'r' :: 'u' :: 'e' :: rest => some (.jbool true, rest)
    | 'f' :: 'a' :: 'l' :: 's' :: 'e' :: rest => some (.jbool false, rest)
    | '"' :: rest =>
      (match parseStrBody (rest.length + 1) rest with
        | some (s, r) => some (.jstr s, r)
        | none => none)
    | '[' :: rest =>
      (match skipWs rest with
        | ']' :: r2 => some (.jarr [], r2)
        | r2 => parseArrItems fuel r2 [])
    | '\x7b' :: rest =>
      (match skipWs rest with
        | '\x7d' :: r2 => some (.jobj [], r2)
        | r2 => parseObjItems fuel r2 [])
    | '-' :: rest =>
      (match parseNum rest with
        | some (n, r) => some (.jnum (-n), r)
        | none => none)
    | c :: rest =>
      if isDigit c then
        match parseNum (c :: rest) with
        | some (n, r) => some (.jnum n, r)
        | none => none
      else none
    | [] => none

/-- Comma-separated array elements up to `]`. -/
def parseArrItems : Nat → List Char → List JValue → Option (JValue × List Char)
  | 0, _, _ => none
  | fuel + 1, cs, acc =>
    match parseJ fuel cs with
    | some (v, rest) =>
      (match skipWs rest with
        | ',' :: r2 => parseArrItems fuel r2 (acc ++ [v])
        | ']' :: r2 => some (.jarr (acc ++ [v]), r2)
        | _ => none)
    | none => none

/-- Comma-separated object members up to the closing brace. -/
def parseObjItems : Nat → List Char → List (String × JValue) → Option (JValue × List Char)
  | 0, _, _ => none
  | fuel + 1, cs, acc =>
    match skipWs cs with
    | '"' :: rest =>
      (match parseStrBody (rest.length + 1) rest with
        | some (k, r1) =>
          (match skipWs r1 with
            | ':' :: r2 =>
              (match parseJ fuel r2 with
                | some (v, r3) =>
                  (match skipWs r3 with
                    | ',' :: r4 => parseObjItems fuel r4 (acc ++ [(k, v)])
                    | '\x7d' :: r4 => some (.jobj (acc ++ [(k, v)]), r4)
                    | _ => none)
                | none => none)
            | _ => none)
        | none => none)
    | _ => none

end

/-- `json.loads` on decoded text: one value, then nothing but whitespace. -/
def jsonParse (cs : List Char) : Option JValue :=
  match parseJ (2 * cs.length + 4) cs with
  | some (v, rest) => if (skipWs rest).isEmpty then some v else none
  | none => none

/-- Translation of `parse_reply_json` (lines 45-51): decode the body as UTF-8,
JSON-parse it, and collapse every failure of either step to `none` — the
`except Exception: return None` of the source, so the function is total and
never raises. -/
def parse_reply_json (body : List Nat) : Option JValue :=
  match utf8Decode body with
  | some cs => jsonParse cs
  | none => none

-- ---------------------------------------------------------------------------
-- Sample fixtures used by witnesses and counterexamples
-- ---------------------------------------------------------------------------

/-- A Mountains-page view state with a rendered mountain (id 5) and one
rendered group, used as the pre-existing state in witnesses. -/
def sampleView : MView :=
  ⟨some (.jobj [("id", .jnum 5), ("name", .jstr "Everest")]),
   "Name: Everest", "Height: 8848", "Country: Nepal", "Region: Khumbu",
   "the highest mountain",
   [⟨none, none, none, some "2024-01-01", none, none, none, none⟩]⟩

/-- A concrete groups payload: three records with dates 2025-05-01, absent,
2024-01-01. -/
def sampleGroupsPayload : List JValue :=
  [.jobj [("ascent_start_date", .jstr "2025-05-01")],
   .jobj [],
   .jobj [("ascent_start_date", .jstr "2024-01-01")]]

/-- The records `sampleGroupsPayload` parses to. -/
def sampleGroupRecs : List GroupRec :=
  [⟨none, none, none, some "2025-05-01", none, none, none, none⟩,
   ⟨none, none, none, none, none, none, none, none⟩,
   ⟨none, none, none, some "2024-01-01", none, none, none, none⟩]

-- ---------------------------------------------------------------------------
-- Claims
-- ---------------------------------------------------------------------------

/-- C1: for every list of group records received on a successful groups fetch,
the rendered order is non-decreasing by `ascent_start_date` compared as
strings, a record with an absent or null date taking the empty string as its
key (`startKey`) and therefore sorting first. -/
theorem claim1_groups_rendered_sorted (xs : List JValue) (gs : List GroupRec) (st : MView)
    (h : xs.mapM toGroupRec? = some gs) :
    List.Sorted groupLe ((on_groups false (some (.jarr xs)) st).1.groups_list) := by
  have hr : (on_groups false (some (.jarr xs)) st).1.groups_list = sortGroups gs := by
    simp only [on_groups, h]
    rfl
  rw [hr]
  exact List.sorted_insertionSort groupLe gs

/-- Witness for C1 at a concrete payload of three records with dates
2025-05-01, absent, 2024-01-01. -/
theorem claim1_witness :
    sampleGroupsPayload.mapM toGroupRec? = some sampleGroupRecs ∧
      List.Sorted groupLe
        ((on_groups false (some (.jarr sampleGroupsPayload)) sampleView).1.groups_list) :=
  ⟨rfl, claim1_groups_rendered_sorted sampleGroupsPayload sampleGroupRecs sampleView rfl⟩

/-- C2 counterexample: on the climber whose only name part is `" a"`, the
source strips the join and returns `"a"`, while the claimed rule returns the
unstripped `" a"`. -/
theorem claim2_counterexample :
    human_name_from_climber ⟨some " a", none, none, none⟩ ≠
      displayNameClaim ⟨some " a", none, none, none⟩ := by decide

/-- C2 amended: the display name is the space-joined non-empty name parts with
surrounding whitespace stripped; when the stripped join is empty (in
particular when all name parts are empty or absent) the email is returned,
and "Unknown" when the email too is empty or absent. -/
theorem claim2_display_name (c : Climber) :
    human_name_from_climber c = displayNameAmended c := by
  unfold human_name_from_climber displayNameAmended
  by_cases h : pyStrip (String.intercalate " "
      ([c.first_name.getD "", c.middle_name.getD "", c.last_name.getD ""].filter
        (fun p => p != ""))) = ""
  · simp only [h, ne_eq, not_true_eq_false, if_false, if_true, reduceIte]
    cases c.email with
    | none => rfl
    | some e => by_cases he : e = "" <;> simp [he]
  · simp only [h, ne_eq, not_false_eq_true, if_true, reduceIte]

/-- C3: whenever the pre-edit groups fetch succeeds with a non-empty list, the
edit is refused — one informational message, no dialog, and no PUT regardless
of any dialog decision. -/
theorem claim3_edit_refused_on_groups (data : Option JValue) (xs : List JValue)
    (current : JValue) (dlg : Option EditForm)
    (hdata : data = some (.jarr xs)) (hne : xs ≠ []) :
    on_check_groups_before_edit false data current dlg = ⟨0, 1, false, none⟩ := by
  subst hdata
  cases xs with
  | nil => exact absurd rfl hne
  | cons a l => rfl

/-- Witness for C3 at a one-element groups payload. -/
theorem claim3_witness :
    on_check_groups_before_edit false (some (.jarr [JValue.null]))
        (.jobj [("id", JValue.jnum 3)]) (some ⟨"Everest", 8848, "Nepal", "Khumbu", "d"⟩) =
      ⟨0, 1, false, none⟩ :=
  claim3_edit_refused_on_groups _ [JValue.null] _ _ rfl (by simp)

/-- C4 counterexample: `MainWindow._on_combo_loaded` completes with a
transport error, leaves the combo and title unchanged, and produces zero
error notifications — not exactly one as claimed. -/
theorem claim4_counterexample :
    on_combo_loaded true none [("Everest (Nepal)", JValue.jnum 1)] "Everest" =
      (([("Everest (Nepal)", JValue.jnum 1)], "Everest"), 0, []) ∧ (0 : Nat) ≠ 1 :=
  ⟨rfl, by decide⟩

/-- C4 amended: on a transport error every fetch handler leaves its view
state unchanged and produces exactly one error notification, except the
mountain-combo loader, which produces none. -/
theorem claim4_error_leaves_view :
    (∀ data st, on_mountain_detail true data st = (st, 1)) ∧
    (∀ data st, on_groups true data st = (st, 1)) ∧
    (∀ data st, on_refresh_fetched true data st = (st, 1, [])) ∧
    (∀ data st, climbers_on_fetched true data st = (st, 1)) ∧
    (∀ data st, groups_page_on_fetched true data st = (st, 1)) ∧
    (∀ data st, ascents_on_fetched true data st = (st, 1)) ∧
    (∀ data st, stats_on_fetched true data st = (st, 1)) ∧
    (∀ data current dlg, on_check_groups_before_edit true data current dlg =
      ⟨1, 0, false, none⟩) ∧
    (∀ data dlg, prep_add true data dlg = ⟨1, 0, none, none⟩) ∧
    (∀ data combo title, on_combo_loaded true data combo title = ((combo, title), 0, [])) :=
  ⟨fun _ _ => rfl, fun _ _ => rfl, fun _ _ => rfl, fun _ _ => rfl, fun _ _ => rfl,
   fun _ _ => rfl, fun _ _ => rfl, fun _ _ _ => rfl, fun _ _ => rfl, fun _ _ _ => rfl⟩

/-- C5: when a fetch completes without a transport error but its body fails
UTF-8 decoding or JSON parsing, the parse result is `none` (the decode-parse
pipeline is a total function — nothing raises), and the stats page renders its
`'No stats'` placeholder. -/
theorem claim5_parse_failure_placeholder (body : List Nat) (st : String)
    (h : utf8Decode body = none ∨ ∃ cs, utf8Decode body = some cs ∧ jsonParse cs = none) :
    parse_reply_json body = none ∧
      stats_on_fetched false (parse_reply_json body) st = ("No stats", 0) := by
  have hp : parse_reply_json body = none := by
    unfold parse_reply_json
    rcases h with h | ⟨cs, h1, h2⟩
    · rw [h]
    · rw [h1]
      exact h2
  refine ⟨hp, ?_⟩
  rw [hp]
  rfl

/-- Witness for C5 at the malformed one-byte body `0x7B` (an unclosed opening
brace). -/
theorem claim5_witness :
    parse_reply_json [123] = none ∧
      stats_on_fetched false (parse_reply_json [123]) "old stats" = ("No stats", 0) :=
  claim5_parse_failure_placeholder [123] "old stats" (Or.inr ⟨['\x7b'], rfl, rfl⟩)

/-- C6: a group-creation submission with the mountain selector at the
sentinel value -1 is refused: one informational message and no POST. -/
theorem claim6_sentinel_refuses_post (data : Option JValue) (f : AddGroupForm)
    (h : f.selected = .jnum (-1)) :
    (prep_add false data (some f)).post = none ∧ (prep_add false data (some f)).infos = 1 := by
  constructor <;> simp [prep_add, h, JValue.pyEq]

/-- Witness for C6 at a concrete accepted form with the sentinel selected. -/
theorem claim6_witness :
    (prep_add false none (some ⟨"g", "d", 1, "2025-01-01", .jnum (-1)⟩)).post = none ∧
      (prep_add false none (some ⟨"g", "d", 1, "2025-01-01", .jnum (-1)⟩)).infos = 1 :=
  claim6_sentinel_refuses_post none ⟨"g", "d", 1, "2025-01-01", .jnum (-1)⟩ rfl

/-- C7 counterexample: the refresh fetch returns the non-empty list
`[{id: 0}]` while the displayed mountain has id 5; the claim says the first
mountain is loaded, but the source's truthiness guards fire no request and
leave the view unchanged. -/
theorem claim7_counterexample :
    on_refresh_fetched false (some (.jarr [JValue.jobj [("id", JValue.jnum 0)]])) sampleView =
        (sampleView, 0, []) ∧
      ([] : List Request) ≠
        [Request.getMountainDetail (JValue.jnum 0), Request.getMountainGroups (JValue.jnum 0)] :=
  ⟨rfl, (List.cons_ne_nil _ _).symm⟩

/-- C7 amended: a successful refresh completion behaves as `refresh_spec`: an
empty list resets the detail fields and group list to placeholders; otherwise
the current mountain is reloaded when its id is truthy and present in the
fetched ids, else the first mountain is loaded when its id is truthy, else no
request is fired. -/
theorem claim7_refresh_behaviour (ms : List JValue) (st : MView) :
    on_refresh_fetched false (some (.jarr ms)) st = refresh_spec ms st := by
  cases ms with
  | nil => rfl
  | cons m0 rest =>
    unfold on_refresh_fetched refresh_spec
    simp only [List.isEmpty_cons, Bool.false_eq_true, if_false, List.headD_cons, reduceIte]
    split
    next h =>
      simp only [Bool.and_eq_true] at h
      simp [load_mountain, h.1]
    next h =>
      split
      next h2 => simp [load_mountain, h2]
      next h2 => rfl

/-- C8 counterexample: `load_mountain(0)` fires no request at all, refuting
that both requests are fired unconditionally for every mountain id. -/
theorem claim8_counterexample :
    load_mountain (JValue.jnum 0) = [] ∧
      ([] : List Request) ≠
        [Request.getMountainDetail (JValue.jnum 0), Request.getMountainGroups (JValue.jnum 0)] :=
  ⟨rfl, (List.cons_ne_nil _ _).symm⟩

/-- C8 amended: for every truthy mountain id `load_mountain` fires exactly the
detail request and the groups request (a falsy id fires none), and the two
completion callbacks are independent: the detail callback never touches the
groups half of the view and the groups callback never touches the detail
half. -/
theorem claim8_load_and_independence :
    (∀ mid : JValue, mid.truthy = true →
        load_mountain mid = [.getMountainDetail mid, .getMountainGroups mid]) ∧
    (∀ err data st, groupsHalf (on_mountain_detail err data st).1 = groupsHalf st) ∧
    (∀ err data st, detailHalf (on_groups err data st).1 = detailHalf st) := by
  refine ⟨fun mid h => by simp [load_mountain, h], fun err data st => ?_, fun err data st => ?_⟩
  · cases err with
    | true => rfl
    | false =>
      cases data with
      | none => rfl
      | some v => cases v <;> rfl
  · cases err with
    | true => rfl
    | false =>
      cases data with
      | none => rfl
      | some v =>
        cases v with
        | jarr xs =>
          rcases hm : xs.mapM toGroupRec? with _ | gs <;>
            simp only [on_groups, hm, detailHalf] <;> rfl
        | null => rfl
        | jbool b => rfl
        | jnum n => rfl
        | jstr s => rfl
        | jobj fs => rfl

/-- Witness for C8 at the truthy id 1. -/
theorem claim8_witness :
    load_mountain (JValue.jnum 1) =
      [Request.getMountainDetail (JValue.jnum 1), Request.getMountainGroups (JValue.jnum 1)] :=
  claim8_load_and_independence.1 (JValue.jnum 1) rfl

/-- C9: when the pre-edit groups check succeeds but the parsed payload is not
a non-empty list (in particular `none`, from malformed JSON), the edit is
permitted: the dialog opens, and accepting it sends the PUT for the current
mountain's id. -/
theorem claim9_nonlist_payload_permits_edit (data : Option JValue) (current : JValue)
    (f : EditForm) (h : nonEmptyListPayload data = false) :
    on_check_groups_before_edit false data current (some f) =
      ⟨0, 0, true, some (getJ current "id", f)⟩ := by
  simp [on_check_groups_before_edit, h]

/-- Witness for C9: a `none` payload (malformed body) with mountain id 7 and
an accepted dialog results in the PUT being sent. -/
theorem claim9_witness :
    on_check_groups_before_edit false none (.jobj [("id", JValue.jnum 7)])
        (some ⟨"K2", 8611, "Pakistan", "Karakoram", "d"⟩) =
      ⟨0, 0, true, some (JValue.jnum 7, ⟨"K2", 8611, "Pakistan", "Karakoram", "d"⟩)⟩ :=
  claim9_nonlist_payload_permits_edit none (.jobj [("id", JValue.jnum 7)])
    ⟨"K2", 8611, "Pakistan", "Karakoram", "d"⟩ rfl

/-- C10: on a successful groups fetch whose payload is not a list the
rendered group list ends up empty (the widget is cleared before the shape
check), while a successful detail fetch whose payload is not a dict leaves
the detail view entirely unchanged. -/
theorem claim10_frame_effects :
    (∀ data st, isListPayload data = false →
        on_groups false data st = ({ st with groups_list := [] }, 0)) ∧
    (∀ data st, isDictPayload data = false → on_mountain_detail false data st = (st, 0)) := by
  constructor
  · intro data st h
    cases data with
    | none => rfl
    | some v => cases v <;> simp_all [isListPayload, on_groups]
  · intro data st h
    cases data with
    | none => rfl
    | some v => cases v <;> simp_all [isDictPayload, on_mountain_detail]

/-- Witness for C10 at a `null` payload over a view with one rendered group:
the group list is emptied, the detail view is untouched. -/
theorem claim10_witness :
    on_groups false (some JValue.null) sampleView = ({ sampleView with groups_list := [] }, 0) ∧
      on_mountain_detail false (some JValue.null) sampleView = (sampleView, 0) :=
  ⟨claim10_frame_effects.1 (some .null) sampleView rfl,
   claim10_frame_effects.2 (some .null) sampleView rfl⟩

end AlpineViewer
